import Mathlib

/-!
A verification development for the render-proxy subsystem of the edugen
repository: a shallow embedding, in Lean, of the Manim/Asymptote render
service (manim-service/server.js in the repository, here called the render
service) and of the proxy endpoints of the web server (server.js), together
with theorems settling the frozen specification claims C1 to C10.

Conventions of the embedding:
* Pure string manipulation (the LaTeX regex test, toLowerCase, the quality
  regex) is translated to executable Lean functions over lists of
  characters.
* Each HTTP handler becomes a function from a request value and an
  environment value (recording the outcomes of the I/O operations the
  handler performs: probe results, mkdtemp success, the child-process
  events, the workspace file tree, read success) to a trace of observable
  events plus the single response value the handler produces.
* The recursive directory walks (findFileRecursive, findAsyOutput) are
  translated with their explicit work stack, using well-founded recursion
  on the total size of the pending stack.
-/

namespace Edugen

/-- ASCII case lowering, the behaviour of JavaScript
String.prototype.toLowerCase on the ASCII strings the selectors use. -/
def jsToLower (s : String) : String := String.mk (s.data.map Char.toLower)

/-- Word characters of the JavaScript regex class backslash-w:
ASCII letters, digits and the underscore. -/
def wordChar (c : Char) : Bool := c.isAlpha || c.isDigit || c = '_'

/-- Whitespace characters of the JavaScript regex class backslash-s
(ASCII part: space, tab, newline, carriage return, vertical tab,
form feed). -/
def jsSpace (c : Char) : Bool :=
  c = ' ' || c = '\t' || c = '\n' || c = '\r' || c = '\x0b' || c = '\x0c'

/-- Continuation of the regex after the literal Tex or MathTex:
whitespace star followed by an opening parenthesis. -/
def parenAfterWs : List Char → Bool
  | [] => false
  | c :: cs => if jsSpace c then parenAfterWs cs else c = '('

/-- Strip a literal from the front of a character list, returning the
remainder on success. -/
def afterLit : List Char → List Char → Option (List Char)
  | [], cs => some cs
  | _ :: _, [] => none
  | l :: ls, c :: cs => if c = l then afterLit ls cs else none

/-- Scan for a match of the source regex
(backslash-b MathTex backslash-s star open-paren, or the same with Tex) at
any position; prevWord records whether the previous character was a word
character, giving the word-boundary test. -/
def usesLatexGo (prevWord : Bool) : List Char → Bool
  | [] => false
  | c :: cs =>
    (!prevWord &&
      (((afterLit "MathTex".toList (c :: cs)).elim false parenAfterWs) ||
       ((afterLit "Tex".toList (c :: cs)).elim false parenAfterWs))) ||
    usesLatexGo (wordChar c) cs

/-- Model of the test of the regex (backslash-b MathTex backslash-s star
open-paren | backslash-b Tex backslash-s star open-paren) against the
submitted source text, deciding whether the scene uses LaTeX
(render service line 61). -/
def usesLatex (s : String) : Bool := usesLatexGo false s.toList

/-- Model of the quality validation regex caret-q-[lmhpk]-dollar
(render service line 84). -/
def validQuality (s : String) : Bool :=
  match s.toList with
  | ['q', c] => c = 'l' || c = 'm' || c = 'h' || c = 'p' || c = 'k'
  | _ => false

/-- Outcome of probing a binary: the spawn call throws synchronously, the
child emits only an error event, the child emits an error event and later a
close event, or the child emits only a close event carrying its exit code
(none models a null exit code, i.e. termination by signal). -/
inductive ProbeOutcome where
  | spawnThrow
  | errEvent
  | errThenClose (exitCode : Option Int)
  | closed (exitCode : Option Int)
deriving DecidableEq, Repr

/-- Model of cmdExists (render service lines 296 to 306): the promise
resolves false when spawn throws or the error event fires (a later close
event cannot re-resolve the promise), and on a close event resolves to
whether the exit code is 0 or 1.  The function is total: it never throws. -/
def cmdExists : ProbeOutcome → Bool
  | .spawnThrow => false
  | .errEvent => false
  | .errThenClose _ => false
  | .closed c => c == some 0 || c == some 1

/-- A directory listing entry: a plain file or a subdirectory with its own
listing, in readdir order. -/
inductive FsEntry where
  | file (name : String)
  | dir (name : String) (entries : List FsEntry)
deriving Repr

mutual

/-- Size of one filesystem entry, for termination of the walks. -/
def entSize : FsEntry → Nat
  | .file _ => 1
  | .dir _ es => 1 + esSize es

/-- Size of a listing. -/
def esSize : List FsEntry → Nat
  | [] => 0
  | e :: es => entSize e + esSize es

end

/-- Measure of a pending walk stack: total listing size plus the number of
frames. -/
def stackMeasure : List (String × List FsEntry) → Nat
  | [] => 0
  | d :: rest => esSize d.2 + 1 + stackMeasure rest

theorem stackMeasure_append (a b : List (String × List FsEntry)) :
    stackMeasure (a ++ b) = stackMeasure a + stackMeasure b := by
  induction a with
  | nil => simp [stackMeasure]
  | cons d rest ih => simp [stackMeasure, ih]; omega

theorem stackMeasure_reverse (a : List (String × List FsEntry)) :
    stackMeasure a.reverse = stackMeasure a := by
  induction a with
  | nil => rfl
  | cons d rest ih =>
    simp [List.reverse_cons, stackMeasure_append, stackMeasure, ih]
    omega

theorem stackMeasure_mapPath (cur : String)
    (l : List (String × List FsEntry)) :
    stackMeasure (l.map (fun d => (cur ++ "/" ++ d.1, d.2))) = stackMeasure l := by
  induction l with
  | nil => rfl
  | cons d rest ih => simp [stackMeasure, ih]

/-- Scan one directory listing for findFileRecursive (render service lines
282 to 286): return the first file whose name equals the target, together
with the subdirectories encountered, in listing order. -/
def scanListing (fileName : String) : List FsEntry → Option String × List (String × List FsEntry)
  | [] => (none, [])
  | .file n :: es =>
    if n = fileName then (some n, []) else scanListing fileName es
  | .dir n des :: es =>
    let r := scanListing fileName es
    (r.1, (n, des) :: r.2)

theorem scanListing_measure (fileName : String) (es : List FsEntry) :
    stackMeasure (scanListing fileName es).2 ≤ esSize es := by
  induction es with
  | nil => simp [scanListing, stackMeasure, esSize]
  | cons e es ih =>
    cases e with
    | file n =>
      by_cases h : n = fileName
      · simp [scanListing, h, stackMeasure, esSize, entSize]
      · simp [scanListing, h, esSize, entSize]
        omega
    | dir n des =>
      simp [scanListing, stackMeasure, esSize, entSize]
      omega

/-- Model of findFileRecursive's while loop (render service lines 277 to
289): the stack holds directories still to visit, the head being the one
most recently pushed; within a listing, files are examined in readdir
order and subdirectories are pushed in readdir order, hence visited in
reverse readdir order. -/
def ffrGo (fileName : String) : List (String × List FsEntry) → Option String
  | [] => none
  | (cur, es) :: rest =>
    let r := scanListing fileName es
    match r.1 with
    | some n => some (cur ++ "/" ++ n)
    | none =>
      ffrGo fileName ((r.2.reverse.map (fun d => (cur ++ "/" ++ d.1, d.2))) ++ rest)
termination_by stack => stackMeasure stack
decreasing_by
  simp only [stackMeasure_append, stackMeasure]
  rw [List.map_reverse, stackMeasure_reverse, stackMeasure_mapPath]
  have hle := scanListing_measure fileName es
  omega

/-- Model of findFileRecursive (render service lines 277 to 289). -/
def findFileRecursive (root : String) (entries : List FsEntry)
    (fileName : String) : Option String :=
  ffrGo fileName [(root, entries)]

/-- Preferred output names of the Asymptote locator (render service lines
310 to 314). -/
def preferredNames (stem ext : String) : List String :=
  [stem ++ "." ++ ext, stem ++ "-0." ++ ext, stem ++ "-1." ++ ext]

/-- Scan one directory listing for findAsyOutput (render service lines 320
to 327): return the first file whose name is preferred, the
extension-matching candidates, and the subdirectories, all in listing
order. -/
def scanAsyListing (pref : List String) (ext : String) :
    List FsEntry → Option String × List String × List (String × List FsEntry)
  | [] => (none, [], [])
  | .file n :: es =>
    if n ∈ pref then (some n, [], [])
    else
      let r := scanAsyListing pref ext es
      if n.endsWith ("." ++ ext) then (r.1, n :: r.2.1, r.2.2) else r
  | .dir n des :: es =>
    let r := scanAsyListing pref ext es
    (r.1, r.2.1, (n, des) :: r.2.2)

theorem scanAsyListing_measure (pref : List String) (ext : String)
    (es : List FsEntry) :
    stackMeasure (scanAsyListing pref ext es).2.2 ≤ esSize es := by
  induction es with
  | nil => simp [scanAsyListing, stackMeasure, esSize]
  | cons e es ih =>
    cases e with
    | file n =>
      by_cases h : n ∈ pref
      · simp [scanAsyListing, h, stackMeasure, esSize, entSize]
      · by_cases h2 : n.endsWith ("." ++ ext) <;>
          simp [scanAsyListing, h, h2, esSize, entSize] <;> omega
    | dir n des =>
      simp [scanAsyListing, stackMeasure, esSize, entSize]
      omega

/-- Model of findAsyOutput's while loop (render service lines 315 to 329):
a preferred name returns immediately; otherwise extension-matching files
accumulate as candidates, and at the end the first candidate (or none) is
returned. -/
def asyGo (pref : List String) (ext : String) (cands : List String) :
    List (String × List FsEntry) → Option String
  | [] => cands.head?
  | (cur, es) :: rest =>
    let r := scanAsyListing pref ext es
    match r.1 with
    | some n => some (cur ++ "/" ++ n)
    | none =>
      asyGo pref ext (cands ++ r.2.1.map (fun n => cur ++ "/" ++ n))
        ((r.2.2.reverse.map (fun d => (cur ++ "/" ++ d.1, d.2))) ++ rest)
termination_by stack => stackMeasure stack
decreasing_by
  simp only [stackMeasure_append, stackMeasure]
  rw [List.map_reverse, stackMeasure_reverse, stackMeasure_mapPath]
  have hle := scanAsyListing_measure pref ext es
  omega

/-- Model of findAsyOutput (render service lines 309 to 330). -/
def findAsyOutput (root : String) (entries : List FsEntry)
    (ext stem : String) : Option String :=
  asyGo (preferredNames stem ext) ext [] [(root, entries)]

/-- File names of one listing, in readdir order. -/
def listingFiles : List FsEntry → List String
  | [] => []
  | .file n :: es => n :: listingFiles es
  | .dir _ _ :: es => listingFiles es

/-- Subdirectories of one listing, in readdir order. -/
def listingDirs : List FsEntry → List (String × List FsEntry)
  | [] => []
  | .file _ :: es => listingDirs es
  | .dir n des :: es => (n, des) :: listingDirs es

theorem listingDirs_measure (es : List FsEntry) :
    stackMeasure (listingDirs es) ≤ esSize es := by
  induction es with
  | nil => simp [listingDirs, stackMeasure, esSize]
  | cons e es ih =>
    cases e with
    | file n =>
      simp [listingDirs, esSize, entSize]
      omega
    | dir n des =>
      simp [listingDirs, stackMeasure, esSize, entSize]
      omega

/-- Specification-side description of the traversal order shared by the two
locators: the files the while loop examines, as (directory path, file name)
pairs, in exactly the order it examines them (current listing in readdir
order, then the subdirectories depth first, most recently pushed first). -/
def walkFiles : List (String × List FsEntry) → List (String × String)
  | [] => []
  | (cur, es) :: rest =>
    ((listingFiles es).map (fun n => (cur, n))) ++
      walkFiles (((listingDirs es).reverse.map (fun d => (cur ++ "/" ++ d.1, d.2))) ++ rest)
termination_by stack => stackMeasure stack
decreasing_by
  simp only [stackMeasure_append, stackMeasure]
  rw [List.map_reverse, stackMeasure_reverse, stackMeasure_mapPath]
  have hle := listingDirs_measure es
  omega

theorem scanListing_fst (fileName : String) (es : List FsEntry) :
    (scanListing fileName es).1 = (listingFiles es).find? (fun n => n == fileName) := by
  induction es with
  | nil => rfl
  | cons e es ih =>
    cases e with
    | file n =>
      by_cases h : n = fileName
      · simp [scanListing, listingFiles, h]
      · simp [scanListing, listingFiles, h, ih]
    | dir n des => simp [scanListing, listingFiles, ih]

theorem scanListing_snd (fileName : String) (es : List FsEntry)
    (h : (scanListing fileName es).1 = none) :
    (scanListing fileName es).2 = listingDirs es := by
  induction es with
  | nil => rfl
  | cons e es ih =>
    cases e with
    | file n =>
      by_cases hn : n = fileName
      · simp [scanListing, hn] at h
      · simp [scanListing, hn, listingDirs] at h ⊢
        exact ih h
    | dir n des =>
      simp [scanListing, listingDirs] at h ⊢
      exact ih h

theorem scanAsyListing_fst (pref : List String) (ext : String)
    (es : List FsEntry) :
    (scanAsyListing pref ext es).1
      = (listingFiles es).find? (fun n => decide (n ∈ pref)) := by
  induction es with
  | nil => rfl
  | cons e es ih =>
    cases e with
    | file n =>
      by_cases h : n ∈ pref
      · simp [scanAsyListing, listingFiles, h]
      · by_cases h2 : n.endsWith ("." ++ ext) <;>
          simp [scanAsyListing, listingFiles, h, h2, ih]
    | dir n des => simp [scanAsyListing, listingFiles, ih]

theorem scanAsyListing_cands (pref : List String) (ext : String)
    (es : List FsEntry) (h : (scanAsyListing pref ext es).1 = none) :
    (scanAsyListing pref ext es).2.1
      = (listingFiles es).filter (fun n => n.endsWith ("." ++ ext)) := by
  induction es with
  | nil => rfl
  | cons e es ih =>
    cases e with
    | file n =>
      by_cases hn : n ∈ pref
      · simp [scanAsyListing, hn] at h
      · by_cases h2 : n.endsWith ("." ++ ext) <;>
          simp [scanAsyListing, hn, h2, listingFiles] at h ⊢ <;>
          exact ih h
    | dir n des =>
      simp [scanAsyListing, listingFiles] at h ⊢
      exact ih h

theorem scanAsyListing_dirs (pref : List String) (ext : String)
    (es : List FsEntry) (h : (scanAsyListing pref ext es).1 = none) :
    (scanAsyListing pref ext es).2.2 = listingDirs es := by
  induction es with
  | nil => rfl
  | cons e es ih =>
    cases e with
    | file n =>
      by_cases hn : n ∈ pref
      · simp [scanAsyListing, hn] at h
      · by_cases h2 : n.endsWith ("." ++ ext) <;>
          simp [scanAsyListing, hn, h2, listingDirs] at h ⊢ <;>
          exact ih h
    | dir n des =>
      simp [scanAsyListing, listingDirs] at h ⊢
      exact ih h

theorem find?_pairEq (cur fileName : String) (l : List String) :
    ((l.map (fun n => (cur, n))).find? (fun p => p.2 == fileName))
      = (l.find? (fun n => n == fileName)).map (fun n => (cur, n)) := by
  induction l with
  | nil => rfl
  | cons a l ih =>
    by_cases h : a == fileName <;> simp [List.find?_cons, h, ih]

theorem find?_pairMem (cur : String) (pref : List String) (l : List String) :
    ((l.map (fun n => (cur, n))).find? (fun p => decide (p.2 ∈ pref)))
      = (l.find? (fun n => decide (n ∈ pref))).map (fun n => (cur, n)) := by
  induction l with
  | nil => rfl
  | cons a l ih =>
    by_cases h : a ∈ pref <;> simp [List.find?_cons, h, ih]

theorem filterMap_pairEnds (cur ext : String) (l : List String) :
    (((l.map (fun n => (cur, n))).filter
        (fun p => (p.2).endsWith ("." ++ ext))).map (fun p => p.1 ++ "/" ++ p.2))
      = (l.filter (fun n => n.endsWith ("." ++ ext))).map
          (fun n => cur ++ "/" ++ n) := by
  induction l with
  | nil => rfl
  | cons a l ih =>
    by_cases h : a.endsWith ("." ++ ext) <;> simp [List.filter_cons, h, ih]

/-- Characterization of findFileRecursive's loop: it returns the first file
in traversal order whose name equals the target, as a joined path. -/
theorem ffrGo_spec (fileName : String) (stack : List (String × List FsEntry)) :
    ffrGo fileName stack =
      ((walkFiles stack).find? (fun p => p.2 == fileName)).map
        (fun p => p.1 ++ "/" ++ p.2) := by
  generalize hn : stackMeasure stack = n
  induction n using Nat.strong_induction_on generalizing stack with
  | _ n ih =>
    cases stack with
    | nil => simp [ffrGo, walkFiles]
    | cons fr rest =>
      obtain ⟨cur, es⟩ := fr
      rw [ffrGo, walkFiles]
      rw [List.find?_append, find?_pairEq, ← scanListing_fst]
      rcases hscan : (scanListing fileName es).1 with _ | nme
      · have hdirs := scanListing_snd fileName es hscan
        rw [hdirs]
        simp only [Option.map_none', Option.none_or]
        have hmeas :
            stackMeasure
              (((listingDirs es).reverse.map
                  (fun d => (cur ++ "/" ++ d.1, d.2))) ++ rest)
              < n := by
          rw [← hn, stackMeasure_append, List.map_reverse,
            stackMeasure_reverse, stackMeasure_mapPath]
          have := listingDirs_measure es
          simp only [stackMeasure]
          omega
        exact ih _ hmeas _ rfl
      · simp only [Option.map_some', Option.or_some]

/-- Characterization of findAsyOutput's loop: a preferred-name file found
anywhere in traversal order wins; otherwise the first file in traversal
order whose name ends in the dotted extension, preceded by the candidates
already accumulated; otherwise the first accumulated candidate, or none. -/
theorem asyGo_spec (pref : List String) (ext : String) (cands : List String)
    (stack : List (String × List FsEntry)) :
    asyGo pref ext cands stack =
      match (walkFiles stack).find? (fun p => decide (p.2 ∈ pref)) with
      | some p => some (p.1 ++ "/" ++ p.2)
      | none =>
        (cands ++ ((walkFiles stack).filter
            (fun p => (p.2).endsWith ("." ++ ext))).map
              (fun p => p.1 ++ "/" ++ p.2)).head? := by
  generalize hn : stackMeasure stack = n
  induction n using Nat.strong_induction_on generalizing cands stack with
  | _ n ih =>
    cases stack with
    | nil => simp [asyGo, walkFiles]
    | cons fr rest =>
      obtain ⟨cur, es⟩ := fr
      rw [asyGo, walkFiles]
      rw [List.find?_append, find?_pairMem, ← scanAsyListing_fst]
      rcases hscan : (scanAsyListing pref ext es).1 with _ | nme
      · have hcands := scanAsyListing_cands pref ext es hscan
        have hdirs := scanAsyListing_dirs pref ext es hscan
        rw [hcands, hdirs]
        simp only [Option.map_none', Option.none_or]
        have hmeas :
            stackMeasure
              (((listingDirs es).reverse.map
                  (fun d => (cur ++ "/" ++ d.1, d.2))) ++ rest)
              < n := by
          rw [← hn, stackMeasure_append, List.map_reverse,
            stackMeasure_reverse, stackMeasure_mapPath]
          have := listingDirs_measure es
          simp only [stackMeasure]
          omega
        rw [ih _ hmeas _ _ rfl]
        rw [List.filter_append, List.map_append, filterMap_pairEnds,
          List.append_assoc]
      · simp only [Option.map_some', Option.or_some]

/-- Observable events of one render request, in the order the handler
performs them: an availability probe of a named binary, a successful
mkdtemp with its prefix, a successful write of the source file, the spawn
of the render child process, the sending of the (single) HTTP response
with its status, and an invocation of cleanup on the workspace. -/
inductive Ev where
  | probe (cmd : String)
  | mkdtempE (pfx : String)
  | writeE (fileName : String)
  | spawnE (cmd : String) (args : List String)
  | respondE (status : Nat)
  | cleanupE
deriving DecidableEq, Repr

/-- Test for a response event. -/
def Ev.isRespond : Ev → Bool
  | .respondE _ => true
  | _ => false

/-- Test for a cleanup event. -/
def Ev.isCleanup : Ev → Bool
  | .cleanupE => true
  | _ => false

/-- Test for a probe event. -/
def Ev.isProbe : Ev → Bool
  | .probe _ => true
  | _ => false

/-- Test for a spawn event. -/
def Ev.isSpawn : Ev → Bool
  | .spawnE _ _ => true
  | _ => false

/-- Test for a mkdtemp event. -/
def Ev.isMkdtemp : Ev → Bool
  | .mkdtempE _ => true
  | _ => false

/-- The code field of a request body as the handler sees it after JSON
parsing: absent (or undefined), a string, or some non-string value with
the given truthiness. -/
inductive CodeField where
  | missing
  | strVal (s : String)
  | nonString (truthy : Bool)
deriving DecidableEq, Repr

/-- The validation guard on the code field (render service lines 56 and
182): passes exactly when the field is a non-empty string — the source
tests (!code || typeof code !== 'string'), and the empty string is falsy. -/
def codeOk : CodeField → Bool
  | .strVal s => !s.isEmpty
  | _ => false

/-- The string content of a code field that passed validation. -/
def codeString : CodeField → String
  | .strVal s => s
  | _ => ""

/-- A selector field (scene, format, quality) of the request body: absent
(the destructuring default applies) or a value, recorded after the
JavaScript String(x) conversion the handler applies. -/
inductive SelField where
  | absent
  | sval (s : String)
deriving DecidableEq, Repr

/-- Value of a selector with its destructuring default. -/
def selGet (f : SelField) (dflt : String) : String :=
  match f with
  | .absent => dflt
  | .sval s => s

/-- Body of a POST /render request (render service line 55); a missing
body (req.body undefined) is the record with every field absent. -/
structure RenderReq where
  code : CodeField
  scene : SelField
  format : SelField
  quality : SelField
deriving DecidableEq, Repr

/-- Configuration of the render service relevant to /render: the optional
MANIM_BIN override and the PYTHON_BIN name (render service lines 46, 47). -/
structure RenderCfg where
  manimBin : Option String
  pythonBin : String
deriving DecidableEq, Repr

/-- Terminal behaviour of the spawned render child process: only the error
event fires, only the close event fires (with the given exit code, none
modelling a null code), or the error event fires and a close event follows
— the Node documentation leaves open whether close fires after a spawn
error, so both schedules are modelled. -/
inductive ProcEv where
  | spawnErrorOnly
  | closedOnly (exitCode : Option Int)
  | errorThenClosed (exitCode : Option Int)
deriving DecidableEq, Repr

/-- Environment of one /render request: the resolved values of the two
cmdExists probes, whether mkdtemp succeeds and the path it returns,
whether the source write succeeds, whether the local venv manim binary
exists, the child-process behaviour, the workspace tree at artifact-lookup
time, and whether reading the artifact succeeds. -/
structure RenderEnv where
  latexAvail : Bool
  dvisvgmAvail : Bool
  mkdtempOk : Bool
  work : String
  writeOk : Bool
  venvManim : Bool
  procEv : ProcEv
  tree : List FsEntry
  readOk : Bool
deriving Repr

/-- The hints array of the 422 LaTeX-toolchain response (render service
lines 75 to 79). -/
def latexHints : List String :=
  ["macOS: brew install --cask basictex && echo \"export PATH=/Library/TeX/texbin:$PATH\" >> ~/.zshrc",
   "then: sudo tlmgr update --self && sudo tlmgr install dvisvgm cm-super type1cm amsfonts amsmath xcolor geometry standalone preview latexmk",
   "Alternatively, avoid Tex/MathTex and use Text/MarkupText for non-LaTeX labels."]

/-- The hints array of the 422 Asymptote-missing response (render service
lines 190 to 193). -/
def asyHints : List String :=
  ["Debian/Ubuntu: apt-get update && apt-get install -y asymptote",
   "macOS: brew install asymptote"]

/-- The single response a render endpoint produces, one constructor per
exit path of the two handlers. -/
inductive RResp where
  | badCode
  | latexMissing (latex : Bool) (dvisvgm : Bool) (hints : List String)
  | asyMissing (hints : List String)
  | badQuality
  | badFormat
  | routeError (phase : String)
  | spawnFail
  | toolFail (exitCode : Option Int)
  | outputNotFound
  | sendFail
  | okFile (p : String) (contentType : String)
deriving DecidableEq, Repr

/-- HTTP status of each response. -/
def RResp.status : RResp → Nat
  | .badCode => 400
  | .latexMissing _ _ _ => 422
  | .asyMissing _ => 422
  | .badQuality => 400
  | .badFormat => 400
  | .routeError _ => 500
  | .spawnFail => 500
  | .toolFail _ => 500
  | .outputNotFound => 500
  | .sendFail => 500
  | .okFile _ _ => 200

/-- Argument vector passed to manim (render service lines 98 to 104). -/
def renderArgs (qFlag fmt work scene : String) : List String :=
  ["-" ++ qFlag, "--format", fmt, "-o", "out", work ++ "/scene.py", scene]

/-- Placeholder for the repository root path used to locate the bundled
virtual environment (render service line 33). -/
def repoRoot : String := "REPO_ROOT"

/-- Invocation strategy of /render (render service lines 106 to 114):
prefer the configured MANIM_BIN, else the venv manim binary when its stat
succeeds, else python -m manim. -/
def renderCmd (cfg : RenderCfg) (venvManim : Bool) (args : List String) :
    String × List String :=
  match cfg.manimBin with
  | some b => (b, args)
  | none =>
    if venvManim then (repoRoot ++ "/.manim-venv/bin/manim", args)
    else (cfg.pythonBin, "-m" :: "manim" :: args)

/-- The LaTeX-toolchain probe pair /render performs when the source text
uses LaTeX, and the empty trace otherwise (render service lines 62 to 66). -/
def renderProbes (code : String) : List Ev :=
  if usesLatex code then [.probe "latex", .probe "dvisvgm"] else []

/-- Behaviour of the child-process event handlers shared by both endpoints
(render service lines 123 to 170 and 220 to 266), given the trace of the
steps already performed, the child behaviour, the pre-computed result of
the artifact locator, the read outcome and the content type: the error
handler responds 500 and invokes cleanup; the close handler on a non-zero
(or null) exit code responds 500 with the captured streams and invokes
cleanup; on exit code 0 it locates the artifact, responds (500 when absent
or unreadable, 200 with the bytes otherwise), and invokes cleanup in the
finally block; when both handlers fire, the responded guard suppresses the
close handler's response but cleanup is invoked by both handlers. -/
def childPhase (pre : List Ev) (pe : ProcEv) (located : Option String)
    (readOk : Bool) (ctype : String) : List Ev × RResp :=
  match pe with
  | .spawnErrorOnly => (pre ++ [.respondE 500, .cleanupE], .spawnFail)
  | .errorThenClosed _ =>
    (pre ++ [.respondE 500, .cleanupE, .cleanupE], .spawnFail)
  | .closedOnly c =>
    if c ≠ some 0 then (pre ++ [.respondE 500, .cleanupE], .toolFail c)
    else
      match located with
      | none => (pre ++ [.respondE 500, .cleanupE], .outputNotFound)
      | some p =>
        if !readOk then (pre ++ [.respondE 500, .cleanupE], .sendFail)
        else (pre ++ [.respondE 200, .cleanupE], .okFile p ctype)

/-- Model of the POST /render handler (render service lines 53 to 175),
as the trace of observable events it performs and the response it sends.
The branches follow the source line by line: code validation; the LaTeX
probe pair and the 422 early return; quality then format validation;
mkdtemp (failure reaching the route-level catch); the source write
(failure likewise reaching the route-level catch, which does not invoke
cleanup); then the spawn and the child-process event handlers, with
artifact lookup via findFileRecursive. -/
def renderStep (cfg : RenderCfg) (rq : RenderReq) (env : RenderEnv) :
    List Ev × RResp :=
  if !codeOk rq.code then ([.respondE 400], .badCode)
  else
  let lat := usesLatex (codeString rq.code)
  if lat && (!env.latexAvail || !env.dvisvgmAvail) then
    (renderProbes (codeString rq.code) ++ [.respondE 422],
      .latexMissing env.latexAvail env.dvisvgmAvail latexHints)
  else
  let qFlag := jsToLower (selGet rq.quality "ql")
  if !validQuality qFlag then
    (renderProbes (codeString rq.code) ++ [.respondE 400], .badQuality)
  else
  let fmt := jsToLower (selGet rq.format "mp4")
  if !(fmt == "mp4" || fmt == "gif") then
    (renderProbes (codeString rq.code) ++ [.respondE 400], .badFormat)
  else
  if !env.mkdtempOk then
    (renderProbes (codeString rq.code) ++ [.respondE 500],
      .routeError "mkdtemp")
  else
  if !env.writeOk then
    (renderProbes (codeString rq.code) ++ [.mkdtempE "manim-", .respondE 500],
      .routeError "writeFile")
  else
  let cc := renderCmd cfg env.venvManim
    (renderArgs qFlag fmt env.work (selGet rq.scene "GeneratedScene"))
  childPhase
    (renderProbes (codeString rq.code) ++
      [.mkdtempE "manim-", .writeE "scene.py", .spawnE cc.1 cc.2])
    env.procEv
    (findFileRecursive env.work env.tree
      (if fmt == "gif" then "out.gif" else "out.mp4"))
    env.readOk
    (if fmt == "gif" then "image/gif" else "video/mp4")

/-- Configuration of the render service relevant to /asy: the ASY_BIN and
XVFB_BIN names (render service lines 48, 49). -/
structure AsyCfg where
  asyBin : String
  xvfbBin : String
deriving DecidableEq, Repr

/-- Body of a POST /asy request (render service line 181). -/
structure AsyReq where
  code : CodeField
  format : SelField
deriving DecidableEq, Repr

/-- Environment of one /asy request, analogous to RenderEnv, with the
resolved asy and xvfb-run probe values. -/
structure AsyEnv where
  asyAvail : Bool
  mkdtempOk : Bool
  work : String
  writeOk : Bool
  xvfbAvail : Bool
  procEv : ProcEv
  tree : List FsEntry
  readOk : Bool
deriving Repr

/-- Argument vector passed to asy (render service line 207). -/
def asyArgs (fmt work : String) : List String :=
  ["-f", fmt, "-tex", "pdflatex", "-o", "out", work ++ "/main.asy"]

/-- Invocation strategy of /asy (render service lines 210 to 212): wrap in
xvfb-run when its probe succeeded, else invoke asy directly. -/
def asyCmd (cfg : AsyCfg) (useXvfb : Bool) (args : List String) :
    String × List String :=
  if useXvfb then
    (cfg.xvfbBin,
      ["-a", "-s", "-screen 0 1280x1024x24 -ac +extension GLX", cfg.asyBin]
        ++ args)
  else (cfg.asyBin, args)

/-- Model of the POST /asy handler (render service lines 179 to 271),
analogous to renderStep.  Note the source order: the asy availability
probe runs before format validation, and the xvfb-run probe runs after
the workspace is created and the source written, just before the spawn. -/
def asyStep (cfg : AsyCfg) (rq : AsyReq) (env : AsyEnv) :
    List Ev × RResp :=
  if !codeOk rq.code then ([.respondE 400], .badCode)
  else
  if !env.asyAvail then
    ([.probe cfg.asyBin, .respondE 422], .asyMissing asyHints)
  else
  let fmt := jsToLower (selGet rq.format "png")
  if !(fmt == "png" || fmt == "svg") then
    ([.probe cfg.asyBin, .respondE 400], .badFormat)
  else
  if !env.mkdtempOk then
    ([.probe cfg.asyBin, .respondE 500], .routeError "mkdtemp")
  else
  if !env.writeOk then
    ([.probe cfg.asyBin, .mkdtempE "asy-", .respondE 500],
      .routeError "writeFile")
  else
  let ext := if fmt == "svg" then "svg" else "png"
  let cc := asyCmd cfg env.xvfbAvail (asyArgs fmt env.work)
  childPhase
    [.probe cfg.asyBin, .mkdtempE "asy-", .writeE "main.asy",
      .probe cfg.xvfbBin, .spawnE cc.1 cc.2]
    env.procEv
    (findAsyOutput env.work env.tree ext "out")
    env.readOk
    (if fmt == "svg" then "image/svg+xml" else "image/png")

/- JSON values, with lists and objects as mutually inductive spines so
the stringifier is structurally recursive. -/
mutual

/-- A JSON value. -/
inductive JVal where
  | jnull
  | jbool (b : Bool)
  | jnum (n : Int)
  | jstr (s : String)
  | jarr (elems : JList)
  | jobj (fields : JFields)

/-- Spine of a JSON array. -/
inductive JList where
  | jnil
  | jcons (hd : JVal) (tl : JList)

/-- Spine of a JSON object. -/
inductive JFields where
  | fnil
  | fcons (key : String) (val : JVal) (tl : JFields)

end

/-- Escaping of one character inside a JSON string literal (the common
escapes of JSON.stringify; other control characters are left as is in this
model). -/
def jsonEscapeChar (c : Char) : String :=
  if c = '"' then "\\\""
  else if c = '\\' then "\\\\"
  else if c = '\n' then "\\n"
  else if c = '\r' then "\\r"
  else if c = '\t' then "\\t"
  else String.singleton c

/-- A JSON string literal. -/
def jsQuote (s : String) : String :=
  "\"" ++ String.join (s.toList.map jsonEscapeChar) ++ "\""

mutual

/-- Model of JSON.stringify on the JSON values above. -/
def jsStringify : JVal → String
  | .jnull => "null"
  | .jbool b => if b then "true" else "false"
  | .jnum n => toString n
  | .jstr s => jsQuote s
  | .jarr es => "[" ++ jsStringifyList es ++ "]"
  | .jobj fs => "\x7b" ++ jsStringifyFields fs ++ "\x7d"

/-- Stringify the elements of an array, comma separated. -/
def jsStringifyList : JList → String
  | .jnil => ""
  | .jcons v .jnil => jsStringify v
  | .jcons v tl => jsStringify v ++ "," ++ jsStringifyList tl

/-- Stringify the fields of an object, comma separated. -/
def jsStringifyFields : JFields → String
  | .fnil => ""
  | .fcons k v .fnil => jsQuote k ++ ":" ++ jsStringify v
  | .fcons k v tl => jsQuote k ++ ":" ++ jsStringify v ++ "," ++ jsStringifyFields tl

end

/-- Result of safeJson (server.js lines 244 to 246): the parsed JSON value
when parsing succeeds, the raw text otherwise. -/
inductive JsonOrText where
  | parsed (v : JVal)
  | rawText (s : String)

/-- Model of safeJson (server.js lines 244 to 246), parameterized by the
platform JSON parser. -/
def safeJson (parse : String → Option JVal) (s : String) : JsonOrText :=
  match parse s with
  | some v => .parsed v
  | none => .rawText s

/-- JavaScript truthiness of a JSON value (NaN is not modelled). -/
def JVal.falsy : JVal → Bool
  | .jnull => true
  | .jbool b => !b
  | .jnum n => n == 0
  | .jstr s => s.isEmpty
  | _ => false

/-- The body a proxy endpoint forwards upstream (server.js lines 202 and
227): JSON.stringify(req.body || \x7b\x7d) — an absent or falsy parsed
body is replaced by the empty object before stringification. -/
def forwardedBody (bodyOpt : Option JVal) : String :=
  jsStringify (match bodyOpt with
    | none => .jobj .fnil
    | some v => if v.falsy then .jobj .fnil else v)

/-- Behaviour of the upstream render service as seen by one proxy request:
the fetch promise rejects with a network-level error, or a response
arrives with a status, an optional declared content type, and a body. -/
inductive UpstreamBehavior where
  | netErr (msg : String)
  | resp (status : Nat) (contentType : Option String) (body : String)

/-- Observable events of one proxy request: the network fetch with its
target URL and forwarded body, and the sending of the response. -/
inductive PEv where
  | fetchE (url : String) (body : String)
  | prespondE (status : Nat)

/-- The single response a proxy endpoint produces (server.js lines 195 to
217 and 220 to 242). -/
inductive PResp where
  | notConfigured
  | unreachable (details : String)
  | upstreamErr (status : Nat) (body : JsonOrText)
  | relay (body : String) (contentType : String)

/-- HTTP status of each proxy response. -/
def PResp.status : PResp → Nat
  | .notConfigured => 500
  | .unreachable _ => 502
  | .upstreamErr _ _ => 502
  | .relay _ _ => 200

/-- Model of target.replace with the regex slash-dollar (server.js lines
199 and 224): removes one trailing slash. -/
def stripTrailingSlash (s : String) : String :=
  if s.endsWith "/" then s.dropRight 1 else s

/-- Model of the POST /api/manim-proxy and POST /api/asy-proxy handlers
(server.js lines 195 to 217 and 220 to 242); the two differ only in the
upstream path suffix (/render versus /asy) and in fixed message strings,
so one function models both.  The missing-configuration 500 is decided
before any fetch is attempted; a fetch rejection gives 502 with the raw
error description; a non-2xx upstream status gives 502 wrapping the body
through safeJson; a 2xx upstream response is relayed with its declared
content type (or the octet-stream default when the header is absent). -/
def proxyStep (parse : String → Option JVal) (target : Option String)
    (bodyOpt : Option JVal) (pathSuffix : String) (up : UpstreamBehavior) :
    List PEv × PResp :=
  match target with
  | none => ([.prespondE 500], .notConfigured)
  | some t =>
    let url := stripTrailingSlash t ++ pathSuffix
    let fwd := forwardedBody bodyOpt
    match up with
    | .netErr m => ([.fetchE url fwd, .prespondE 502], .unreachable m)
    | .resp st ct body =>
      if 200 ≤ st ∧ st < 300 then
        ([.fetchE url fwd, .prespondE 200],
          .relay body (ct.getD "application/octet-stream"))
      else
        ([.fetchE url fwd, .prespondE 502],
          .upstreamErr st (safeJson parse body))

/-- The kind of an observable event, forgetting its payload; used to state
ordering properties of traces. -/
inductive EvKind where
  | kprobe
  | kmkdtemp
  | kwrite
  | kspawn
  | krespond
  | kcleanup
deriving DecidableEq, Repr

/-- Kind of an event. -/
def Ev.kind : Ev → EvKind
  | .probe _ => .kprobe
  | .mkdtempE _ => .kmkdtemp
  | .writeE _ => .kwrite
  | .spawnE _ _ => .kspawn
  | .respondE _ => .krespond
  | .cleanupE => .kcleanup

/-- Number of cleanup invocations the handlers perform once the child
process has been spawned: two when both the error and the close handler
fire, one otherwise. -/
def handlerCleanups : ProcEv → Nat
  | .errorThenClosed _ => 2
  | _ => 1

/-- A sample render-service configuration for concrete instantiations. -/
def sampleCfg : RenderCfg := ⟨none, "python3"⟩

/-- A sample /asy configuration for concrete instantiations. -/
def sampleAsyCfg : AsyCfg := ⟨"asy", "xvfb-run"⟩

theorem usesLatex_ne_empty (s : String) (h : usesLatex s = true) :
    s.isEmpty = false := by
  cases he : s.isEmpty
  · rfl
  · exfalso
    rw [(String.isEmpty_iff s).mp he] at h
    exact absurd h (by decide)

/-- C3: for every probe behaviour, the availability prober cmdExists
resolves to a boolean and never throws (it is a total function into Bool);
it resolves true exactly when the probed process completes with exit code
0 or exit code 1, and false on a spawn-level error or any other completed
exit status (including a null code). -/
theorem C3_cmdExists_resolution (o : ProbeOutcome) :
    cmdExists o = true ↔ (o = .closed (some 0) ∨ o = .closed (some 1)) := by
  cases o with
  | spawnThrow => simp [cmdExists]
  | errEvent => simp [cmdExists]
  | errThenClose c => simp [cmdExists]
  | closed c =>
    simp only [cmdExists, Bool.or_eq_true, beq_iff_eq]
    constructor
    · rintro (rfl | rfl)
      · exact Or.inl rfl
      · exact Or.inr rfl
    · rintro (h | h) <;> injection h with h <;> simp [h]

/-- C8: every render request whose code field is absent, not a string, or
the empty string gets the single response 400 and a trace consisting of
that response alone: no workspace is created, no probe runs, and no
process is spawned, on both endpoints. -/
theorem C8_missing_code (cfg : RenderCfg) (rq : RenderReq) (env : RenderEnv)
    (acfg : AsyCfg) (arq : AsyReq) (aenv : AsyEnv)
    (h : codeOk rq.code = false) (h2 : codeOk arq.code = false) :
    renderStep cfg rq env = ([.respondE 400], .badCode) ∧
    asyStep acfg arq aenv = ([.respondE 400], .badCode) ∧
    RResp.status .badCode = 400 := by
  refine ⟨?_, ?_, rfl⟩
  · unfold renderStep
    simp [h]
  · unfold asyStep
    simp [h2]

/-- Witness for C8 at the empty string and at an absent code field. -/
theorem C8_missing_code_witness :
    renderStep sampleCfg ⟨.strVal "", .absent, .absent, .absent⟩
        ⟨true, true, true, "WORK", true, false, .closedOnly (some 0), [], true⟩
      = ([.respondE 400], .badCode) ∧
    asyStep sampleAsyCfg ⟨.missing, .absent⟩
        ⟨true, true, "WORK", true, false, .closedOnly (some 0), [], true⟩
      = ([.respondE 400], .badCode) ∧
    RResp.status .badCode = 400 :=
  C8_missing_code sampleCfg ⟨.strVal "", .absent, .absent, .absent⟩
    ⟨true, true, true, "WORK", true, false, .closedOnly (some 0), [], true⟩
    sampleAsyCfg ⟨.missing, .absent⟩
    ⟨true, true, "WORK", true, false, .closedOnly (some 0), [], true⟩
    (by decide) (by decide)

/-- C2: every /render request whose code field is a string matching the
typesetting regex, arriving when at least one of latex and dvisvgm is
unavailable, gets the single 422 response whose missing object carries the
two availability booleans and whose hints array is the non-empty constant
latexHints; the trace holds exactly the two probes and the response, so no
workspace is created and no render process is spawned. -/
theorem C2_latex_missing_422 (cfg : RenderCfg) (rq : RenderReq)
    (env : RenderEnv) (s : String)
    (hs : rq.code = .strVal s)
    (hl : usesLatex s = true)
    (hmiss : env.latexAvail = false ∨ env.dvisvgmAvail = false) :
    renderStep cfg rq env
      = ([.probe "latex", .probe "dvisvgm", .respondE 422],
         .latexMissing env.latexAvail env.dvisvgmAvail latexHints) ∧
    RResp.status (.latexMissing env.latexAvail env.dvisvgmAvail latexHints)
      = 422 ∧
    latexHints ≠ [] := by
  have hne := usesLatex_ne_empty s hl
  refine ⟨?_, rfl, by simp [latexHints]⟩
  unfold renderStep
  rw [hs]
  simp only [codeOk, codeString, hne, Bool.not_false, if_true, hl]
  rcases hmiss with hm | hm <;> simp [hm, renderProbes, hl]

/-- Witness for C2 with MathTex source and latex unavailable. -/
theorem C2_latex_missing_422_witness :
    renderStep sampleCfg ⟨.strVal "MathTex(x)", .absent, .absent, .absent⟩
        ⟨false, true, true, "WORK", true, false, .closedOnly (some 0), [], true⟩
      = ([.probe "latex", .probe "dvisvgm", .respondE 422],
         .latexMissing false true latexHints) ∧
    RResp.status (.latexMissing false true latexHints) = 422 ∧
    latexHints ≠ [] :=
  C2_latex_missing_422 sampleCfg ⟨.strVal "MathTex(x)", .absent, .absent, .absent⟩
    ⟨false, true, true, "WORK", true, false, .closedOnly (some 0), [], true⟩
    "MathTex(x)" rfl (by decide) (Or.inl rfl)

/-- C4 counterexample: in a workspace whose listing holds out-1.svg before
out-0.svg (and no out.svg), the locator returns out-1.svg, not out-0.svg as
the claim states. -/
theorem C4_locator_counterexample :
    findAsyOutput "WORK" [.file "out-1.svg", .file "out-0.svg"] "svg" "out"
      = some "WORK/out-1.svg" ∧
    ("WORK/out-1.svg" : String) ≠ "WORK/out-0.svg" := by
  constructor
  · unfold findAsyOutput
    rw [asyGo]
    simp [scanAsyListing, preferredNames]
  · decide

/-- C4 amended: the locator treats the three preferred names as a set
rather than an ordered list: it returns the first file in traversal order
whose name is stem.ext, stem-0.ext or stem-1.ext (a preferred match found
anywhere beats every plain extension match); when no preferred name occurs
it returns the first file in traversal order whose name ends in the dotted
extension; and it returns none (a sentinel, no exception) when neither
exists.  Consequently, with both out-0.svg and out-1.svg present and no
out.svg, it returns whichever of the two the walk meets first, which need
not be out-0.svg. -/
theorem C4_locator_amended (root : String) (entries : List FsEntry)
    (ext stem : String) :
    findAsyOutput root entries ext stem
      = (match (walkFiles [(root, entries)]).find?
            (fun p => decide (p.2 ∈ preferredNames stem ext)) with
         | some p => some (p.1 ++ "/" ++ p.2)
         | none =>
           (((walkFiles [(root, entries)]).filter
               (fun p => (p.2).endsWith ("." ++ ext))).map
             (fun p => p.1 ++ "/" ++ p.2)).head?) := by
  unfold findAsyOutput
  rw [asyGo_spec]
  simp

theorem renderProbes_isProbe (c : String) :
    ∀ e ∈ renderProbes c, e.isProbe = true := by
  unfold renderProbes
  split
  · intro e he
    simp at he
    rcases he with rfl | rfl <;> rfl
  · intro e he
    simp at he

theorem renderProbes_countP_respond (c : String) :
    (renderProbes c).countP Ev.isRespond = 0 := by
  unfold renderProbes
  split <;> rfl

theorem renderProbes_countP_cleanup (c : String) :
    (renderProbes c).countP Ev.isCleanup = 0 := by
  unfold renderProbes
  split <;> rfl

theorem renderProbes_not_mkdtemp (c x : String) :
    Ev.mkdtempE x ∉ renderProbes c := by
  unfold renderProbes
  split <;> simp

theorem renderProbes_kinds_sub (c : String) :
    ((renderProbes c).map Ev.kind).Sublist [EvKind.kprobe, EvKind.kprobe] := by
  unfold renderProbes
  split <;> decide

/-- Shape of a trace produced by the child-process event handlers: the
steps already performed, then one response, then one cleanup per fired
handler. -/
theorem childPhase_fst (pre : List Ev) (pe : ProcEv) (located : Option String)
    (ro : Bool) (ct : String) :
    ∃ st, (childPhase pre pe located ro ct).1
      = pre ++ .respondE st :: List.replicate (handlerCleanups pe) .cleanupE := by
  unfold childPhase handlerCleanups
  cases pe with
  | spawnErrorOnly => exact ⟨500, by simp [List.replicate]⟩
  | errorThenClosed c => exact ⟨500, by simp [List.replicate]⟩
  | closedOnly c =>
    by_cases hc : c = some 0
    · simp only [hc]
      cases located with
      | none => exact ⟨500, by simp [List.replicate]⟩
      | some p =>
        cases ro
        · exact ⟨500, by simp [List.replicate]⟩
        · exact ⟨200, by simp [List.replicate]⟩
    · exact ⟨500, by simp [hc, List.replicate]⟩

/-- The child-phase response is never a validation response. -/
theorem childPhase_snd_ne (pre : List Ev) (pe : ProcEv)
    (located : Option String) (ro : Bool) (ct : String) :
    (childPhase pre pe located ro ct).2 ≠ .badQuality ∧
    (childPhase pre pe located ro ct).2 ≠ .badFormat ∧
    (childPhase pre pe located ro ct).2 ≠ .badCode ∧
    (∀ la da hs, (childPhase pre pe located ro ct).2 ≠ .latexMissing la da hs) ∧
    (∀ hs, (childPhase pre pe located ro ct).2 ≠ .asyMissing hs) := by
  unfold childPhase
  cases pe with
  | spawnErrorOnly => simp
  | errorThenClosed c => simp
  | closedOnly c =>
    by_cases hc : c = some 0
    · simp only [hc]
      cases located with
      | none => simp
      | some p => cases ro <;> simp
    · simp [hc]

/-- Exhaustive case analysis of the /render handler: exactly one of the
seven exit paths fires, each recorded with the conditions that select it
and the full result it produces. -/
theorem renderStep_cases (cfg : RenderCfg) (rq : RenderReq) (env : RenderEnv) :
    (codeOk rq.code = false ∧
      renderStep cfg rq env = ([.respondE 400], .badCode)) ∨
    (codeOk rq.code = true ∧
      (usesLatex (codeString rq.code)
        && (!env.latexAvail || !env.dvisvgmAvail)) = true ∧
      renderStep cfg rq env
        = (renderProbes (codeString rq.code) ++ [.respondE 422],
           .latexMissing env.latexAvail env.dvisvgmAvail latexHints)) ∨
    (codeOk rq.code = true ∧
      (usesLatex (codeString rq.code)
        && (!env.latexAvail || !env.dvisvgmAvail)) = false ∧
      validQuality (jsToLower (selGet rq.quality "ql")) = false ∧
      renderStep cfg rq env
        = (renderProbes (codeString rq.code) ++ [.respondE 400],
           .badQuality)) ∨
    (codeOk rq.code = true ∧
      (usesLatex (codeString rq.code)
        && (!env.latexAvail || !env.dvisvgmAvail)) = false ∧
      validQuality (jsToLower (selGet rq.quality "ql")) = true ∧
      (jsToLower (selGet rq.format "mp4") == "mp4"
        || jsToLower (selGet rq.format "mp4") == "gif") = false ∧
      renderStep cfg rq env
        = (renderProbes (codeString rq.code) ++ [.respondE 400],
           .badFormat)) ∨
    (codeOk rq.code = true ∧
      (usesLatex (codeString rq.code)
        && (!env.latexAvail || !env.dvisvgmAvail)) = false ∧
      validQuality (jsToLower (selGet rq.quality "ql")) = true ∧
      (jsToLower (selGet rq.format "mp4") == "mp4"
        || jsToLower (selGet rq.format "mp4") == "gif") = true ∧
      env.mkdtempOk = false ∧
      renderStep cfg rq env
        = (renderProbes (codeString rq.code) ++ [.respondE 500],
           .routeError "mkdtemp")) ∨
    (codeOk rq.code = true ∧
      (usesLatex (codeString rq.code)
        && (!env.latexAvail || !env.dvisvgmAvail)) = false ∧
      validQuality (jsToLower (selGet rq.quality "ql")) = true ∧
      (jsToLower (selGet rq.format "mp4") == "mp4"
        || jsToLower (selGet rq.format "mp4") == "gif") = true ∧
      env.mkdtempOk = true ∧ env.writeOk = false ∧
      renderStep cfg rq env
        = (renderProbes (codeString rq.code)
             ++ [.mkdtempE "manim-", .respondE 500],
           .routeError "writeFile")) ∨
    (codeOk rq.code = true ∧
      (usesLatex (codeString rq.code)
        && (!env.latexAvail || !env.dvisvgmAvail)) = false ∧
      validQuality (jsToLower (selGet rq.quality "ql")) = true ∧
      (jsToLower (selGet rq.format "mp4") == "mp4"
        || jsToLower (selGet rq.format "mp4") == "gif") = true ∧
      env.mkdtempOk = true ∧ env.writeOk = true ∧
      ∃ cc : String × List String,
        renderStep cfg rq env
          = childPhase
              (renderProbes (codeString rq.code) ++
                [.mkdtempE "manim-", .writeE "scene.py", .spawnE cc.1 cc.2])
              env.procEv
              (findFileRecursive env.work env.tree
                (if jsToLower (selGet rq.format "mp4") == "gif"
                  then "out.gif" else "out.mp4"))
              env.readOk
              (if jsToLower (selGet rq.format "mp4") == "gif"
                then "image/gif" else "video/mp4")) := by
  by_cases h1 : codeOk rq.code = true
  case neg =>
    left
    rw [Bool.not_eq_true] at h1
    exact ⟨h1, by unfold renderStep; simp [h1]⟩
  by_cases h2 : (usesLatex (codeString rq.code)
      && (!env.latexAvail || !env.dvisvgmAvail)) = true
  case pos =>
    right; left
    exact ⟨h1, h2, by unfold renderStep; simp [h1, h2]⟩
  rw [Bool.not_eq_true] at h2
  by_cases h3 : validQuality (jsToLower (selGet rq.quality "ql")) = true
  case neg =>
    right; right; left
    rw [Bool.not_eq_true] at h3
    exact ⟨h1, h2, h3, by unfold renderStep; simp [h1, h2, h3]⟩
  by_cases h4 : (jsToLower (selGet rq.format "mp4") == "mp4"
      || jsToLower (selGet rq.format "mp4") == "gif") = true
  case neg =>
    right; right; right; left
    rw [Bool.not_eq_true] at h4
    exact ⟨h1, h2, h3, h4, by unfold renderStep; simp [h1, h2, h3, h4]⟩
  by_cases h5 : env.mkdtempOk = true
  case neg =>
    right; right; right; right; left
    rw [Bool.not_eq_true] at h5
    exact ⟨h1, h2, h3, h4, h5, by unfold renderStep; simp [h1, h2, h3, h4, h5]⟩
  by_cases h6 : env.writeOk = true
  case neg =>
    right; right; right; right; right; left
    rw [Bool.not_eq_true] at h6
    exact ⟨h1, h2, h3, h4, h5, h6,
      by unfold renderStep; simp [h1, h2, h3, h4, h5, h6]⟩
  right; right; right; right; right; right
  refine ⟨h1, h2, h3, h4, h5, h6, ?_, ?_⟩
  exact renderCmd cfg env.venvManim
    (renderArgs (jsToLower (selGet rq.quality "ql"))
      (jsToLower (selGet rq.format "mp4")) env.work
      (selGet rq.scene "GeneratedScene"))
  unfold renderStep
  simp [h1, h2, h3, h4, h5, h6]

/-- Exhaustive case analysis of the /asy handler: exactly one of the six
exit paths fires. -/
theorem asyStep_cases (cfg : AsyCfg) (rq : AsyReq) (env : AsyEnv) :
    (codeOk rq.code = false ∧
      asyStep cfg rq env = ([.respondE 400], .badCode)) ∨
    (codeOk rq.code = true ∧ env.asyAvail = false ∧
      asyStep cfg rq env
        = ([.probe cfg.asyBin, .respondE 422], .asyMissing asyHints)) ∨
    (codeOk rq.code = true ∧ env.asyAvail = true ∧
      (jsToLower (selGet rq.format "png") == "png"
        || jsToLower (selGet rq.format "png") == "svg") = false ∧
      asyStep cfg rq env
        = ([.probe cfg.asyBin, .respondE 400], .badFormat)) ∨
    (codeOk rq.code = true ∧ env.asyAvail = true ∧
      (jsToLower (selGet rq.format "png") == "png"
        || jsToLower (selGet rq.format "png") == "svg") = true ∧
      env.mkdtempOk = false ∧
      asyStep cfg rq env
        = ([.probe cfg.asyBin, .respondE 500], .routeError "mkdtemp")) ∨
    (codeOk rq.code = true ∧ env.asyAvail = true ∧
      (jsToLower (selGet rq.format "png") == "png"
        || jsToLower (selGet rq.format "png") == "svg") = true ∧
      env.mkdtempOk = true ∧ env.writeOk = false ∧
      asyStep cfg rq env
        = ([.probe cfg.asyBin, .mkdtempE "asy-", .respondE 500],
           .routeError "writeFile")) ∨
    (codeOk rq.code = true ∧ env.asyAvail = true ∧
      (jsToLower (selGet rq.format "png") == "png"
        || jsToLower (selGet rq.format "png") == "svg") = true ∧
      env.mkdtempOk = true ∧ env.writeOk = true ∧
      ∃ cc : String × List String,
        asyStep cfg rq env
          = childPhase
              [.probe cfg.asyBin, .mkdtempE "asy-", .writeE "main.asy",
                .probe cfg.xvfbBin, .spawnE cc.1 cc.2]
              env.procEv
              (findAsyOutput env.work env.tree
                (if jsToLower (selGet rq.format "png") == "svg"
                  then "svg" else "png") "out")
              env.readOk
              (if jsToLower (selGet rq.format "png") == "svg"
                then "image/svg+xml" else "image/png")) := by
  by_cases h1 : codeOk rq.code = true
  case neg =>
    left
    rw [Bool.not_eq_true] at h1
    exact ⟨h1, by unfold asyStep; simp [h1]⟩
  by_cases h2 : env.asyAvail = true
  case neg =>
    right; left
    rw [Bool.not_eq_true] at h2
    exact ⟨h1, h2, by unfold asyStep; simp [h1, h2]⟩
  by_cases h3 : (jsToLower (selGet rq.format "png") == "png"
      || jsToLower (selGet rq.format "png") == "svg") = true
  case neg =>
    right; right; left
    rw [Bool.not_eq_true] at h3
    exact ⟨h1, h2, h3, by unfold asyStep; simp [h1, h2, h3]⟩
  by_cases h4 : env.mkdtempOk = true
  case neg =>
    right; right; right; left
    rw [Bool.not_eq_true] at h4
    exact ⟨h1, h2, h3, h4, by unfold asyStep; simp [h1, h2, h3, h4]⟩
  by_cases h5 : env.writeOk = true
  case neg =>
    right; right; right; right; left
    rw [Bool.not_eq_true] at h5
    exact ⟨h1, h2, h3, h4, h5, by unfold asyStep; simp [h1, h2, h3, h4, h5]⟩
  right; right; right; right; right
  refine ⟨h1, h2, h3, h4, h5, ?_, ?_⟩
  exact asyCmd cfg env.xvfbAvail
    (asyArgs (jsToLower (selGet rq.format "png")) env.work)
  unfold asyStep
  simp [h1, h2, h3, h4, h5]

/-- C7: every render request, on either endpoint, produces exactly one
response event in its trace — in particular when both the spawn-error and
the close handler fire for the same child, or when reading or sending the
artifact fails after a successful exit, the responded guard prevents a
second response. -/
theorem C7_single_response (cfg : RenderCfg) (rq : RenderReq) (env : RenderEnv)
    (acfg : AsyCfg) (arq : AsyReq) (aenv : AsyEnv) :
    ((renderStep cfg rq env).1.countP Ev.isRespond) = 1 ∧
    ((asyStep acfg arq aenv).1.countP Ev.isRespond) = 1 := by
  constructor
  · rcases renderStep_cases cfg rq env with
      ⟨_, he⟩ | ⟨_, _, he⟩ | ⟨_, _, _, he⟩ | ⟨_, _, _, _, he⟩ |
      ⟨_, _, _, _, _, he⟩ | ⟨_, _, _, _, _, _, he⟩ |
      ⟨_, _, _, _, _, _, cc, he⟩
    · rw [he]
      simp [List.countP_cons, Ev.isRespond]
    · rw [he]
      simp [List.countP_append, List.countP_cons,
        renderProbes_countP_respond, Ev.isRespond]
    · rw [he]
      simp [List.countP_append, List.countP_cons,
        renderProbes_countP_respond, Ev.isRespond]
    · rw [he]
      simp [List.countP_append, List.countP_cons,
        renderProbes_countP_respond, Ev.isRespond]
    · rw [he]
      simp [List.countP_append, List.countP_cons,
        renderProbes_countP_respond, Ev.isRespond]
    · rw [he]
      simp [List.countP_append, List.countP_cons,
        renderProbes_countP_respond, Ev.isRespond]
    · obtain ⟨st, hst⟩ := childPhase_fst
        (renderProbes (codeString rq.code) ++
          [.mkdtempE "manim-", .writeE "scene.py", .spawnE cc.1 cc.2])
        env.procEv
        (findFileRecursive env.work env.tree
          (if jsToLower (selGet rq.format "mp4") == "gif"
            then "out.gif" else "out.mp4"))
        env.readOk
        (if jsToLower (selGet rq.format "mp4") == "gif"
          then "image/gif" else "video/mp4")
      rw [he, hst]
      simp [List.countP_append, List.countP_cons, List.countP_replicate,
        renderProbes_countP_respond, Ev.isRespond]
  · rcases asyStep_cases acfg arq aenv with
      ⟨_, he⟩ | ⟨_, _, he⟩ | ⟨_, _, _, he⟩ | ⟨_, _, _, _, he⟩ |
      ⟨_, _, _, _, _, he⟩ | ⟨_, _, _, _, _, cc, he⟩
    · rw [he]
      simp [List.countP_cons, Ev.isRespond]
    · rw [he]
      simp [List.countP_cons, Ev.isRespond]
    · rw [he]
      simp [List.countP_cons, Ev.isRespond]
    · rw [he]
      simp [List.countP_cons, Ev.isRespond]
    · rw [he]
      simp [List.countP_cons, Ev.isRespond]
    · obtain ⟨st, hst⟩ := childPhase_fst
        [.probe acfg.asyBin, .mkdtempE "asy-", .writeE "main.asy",
          .probe acfg.xvfbBin, .spawnE cc.1 cc.2]
        aenv.procEv
        (findAsyOutput aenv.work aenv.tree
          (if jsToLower (selGet arq.format "png") == "svg"
            then "svg" else "png") "out")
        aenv.readOk
        (if jsToLower (selGet arq.format "png") == "svg"
          then "image/svg+xml" else "image/png")
      rw [he, hst]
      simp [List.countP_append, List.countP_cons, List.countP_replicate,
        Ev.isRespond]

/-- C1 counterexample: when the source-file write throws after the
workspace has been acquired (the route-level catch path), the /render
handler responds 500 but never invokes cleanup, so the directory is not
removed; and when both the spawn-error and the close handler fire for the
same child, cleanup is invoked twice, not once. -/
theorem C1_cleanup_counterexample :
    (Ev.mkdtempE "manim-" ∈
        (renderStep sampleCfg ⟨.strVal "x = 1", .absent, .absent, .absent⟩
          ⟨true, true, true, "WORK", false, false, .closedOnly (some 0),
            [], true⟩).1 ∧
      ((renderStep sampleCfg ⟨.strVal "x = 1", .absent, .absent, .absent⟩
          ⟨true, true, true, "WORK", false, false, .closedOnly (some 0),
            [], true⟩).1.countP Ev.isCleanup) = 0) ∧
    ((renderStep sampleCfg ⟨.strVal "x = 1", .absent, .absent, .absent⟩
        ⟨true, true, true, "WORK", true, false, .errorThenClosed none,
          [], true⟩).1.countP Ev.isCleanup) = 2 := by
  refine ⟨⟨?_, ?_⟩, ?_⟩ <;> decide

/-- C1 amended: once the child process has been spawned, cleanup is
invoked on every exit path — exactly once when a single child-process
handler fires (spawn error only, non-zero exit, artifact not found, read
or send failure, success), and twice when both the error and the close
handler fire (removal is idempotent best-effort, so the directory is still
removed); but an exception between workspace acquisition and the spawn
(the source-file write failing) reaches the route-level catch, which
responds 500 without invoking cleanup, leaking the workspace. -/
theorem C1_cleanup_amended (cfg : RenderCfg) (rq : RenderReq)
    (env : RenderEnv) (acfg : AsyCfg) (arq : AsyReq) (aenv : AsyEnv) :
    (env.writeOk = true → Ev.mkdtempE "manim-" ∈ (renderStep cfg rq env).1 →
      ((renderStep cfg rq env).1.countP Ev.isCleanup)
        = handlerCleanups env.procEv) ∧
    (env.writeOk = false → Ev.mkdtempE "manim-" ∈ (renderStep cfg rq env).1 →
      ((renderStep cfg rq env).1.countP Ev.isCleanup) = 0) ∧
    (aenv.writeOk = true → Ev.mkdtempE "asy-" ∈ (asyStep acfg arq aenv).1 →
      ((asyStep acfg arq aenv).1.countP Ev.isCleanup)
        = handlerCleanups aenv.procEv) ∧
    (aenv.writeOk = false → Ev.mkdtempE "asy-" ∈ (asyStep acfg arq aenv).1 →
      ((asyStep acfg arq aenv).1.countP Ev.isCleanup) = 0) := by
  refine ⟨?_, ?_, ?_, ?_⟩
  · intro hw hmem
    rcases renderStep_cases cfg rq env with
      ⟨_, he⟩ | ⟨_, _, he⟩ | ⟨_, _, _, he⟩ | ⟨_, _, _, _, he⟩ |
      ⟨_, _, _, _, _, he⟩ | ⟨_, _, _, _, _, h6, he⟩ |
      ⟨_, _, _, _, _, _, cc, he⟩
    · rw [he] at hmem
      simp at hmem
    · rw [he] at hmem
      simp [List.mem_append, renderProbes_not_mkdtemp] at hmem
    · rw [he] at hmem
      simp [List.mem_append, renderProbes_not_mkdtemp] at hmem
    · rw [he] at hmem
      simp [List.mem_append, renderProbes_not_mkdtemp] at hmem
    · rw [he] at hmem
      simp [List.mem_append, renderProbes_not_mkdtemp] at hmem
    · rw [hw] at h6
      cases h6
    · obtain ⟨st, hst⟩ := childPhase_fst
        (renderProbes (codeString rq.code) ++
          [.mkdtempE "manim-", .writeE "scene.py", .spawnE cc.1 cc.2])
        env.procEv
        (findFileRecursive env.work env.tree
          (if jsToLower (selGet rq.format "mp4") == "gif"
            then "out.gif" else "out.mp4"))
        env.readOk
        (if jsToLower (selGet rq.format "mp4") == "gif"
          then "image/gif" else "video/mp4")
      rw [he, hst]
      simp [List.countP_append, List.countP_cons, List.countP_replicate,
        renderProbes_countP_cleanup, Ev.isCleanup]
  · intro hw hmem
    rcases renderStep_cases cfg rq env with
      ⟨_, he⟩ | ⟨_, _, he⟩ | ⟨_, _, _, he⟩ | ⟨_, _, _, _, he⟩ |
      ⟨_, _, _, _, _, he⟩ | ⟨_, _, _, _, _, _, he⟩ |
      ⟨_, _, _, _, _, h6, cc, he⟩
    · rw [he] at hmem
      simp at hmem
    · rw [he] at hmem
      simp [List.mem_append, renderProbes_not_mkdtemp] at hmem
    · rw [he] at hmem
      simp [List.mem_append, renderProbes_not_mkdtemp] at hmem
    · rw [he] at hmem
      simp [List.mem_append, renderProbes_not_mkdtemp] at hmem
    · rw [he] at hmem
      simp [List.mem_append, renderProbes_not_mkdtemp] at hmem
    · rw [he]
      simp [List.countP_append, List.countP_cons,
        renderProbes_countP_cleanup, Ev.isCleanup]
    · rw [hw] at h6
      cases h6
  · intro hw hmem
    rcases asyStep_cases acfg arq aenv with
      ⟨_, he⟩ | ⟨_, _, he⟩ | ⟨_, _, _, he⟩ | ⟨_, _, _, _, he⟩ |
      ⟨_, _, _, _, h5, he⟩ | ⟨_, _, _, _, _, cc, he⟩
    · rw [he] at hmem
      simp at hmem
    · rw [he] at hmem
      simp at hmem
    · rw [he] at hmem
      simp at hmem
    · rw [he] at hmem
      simp at hmem
    · rw [hw] at h5
      cases h5
    · obtain ⟨st, hst⟩ := childPhase_fst
        [.probe acfg.asyBin, .mkdtempE "asy-", .writeE "main.asy",
          .probe acfg.xvfbBin, .spawnE cc.1 cc.2]
        aenv.procEv
        (findAsyOutput aenv.work aenv.tree
          (if jsToLower (selGet arq.format "png") == "svg"
            then "svg" else "png") "out")
        aenv.readOk
        (if jsToLower (selGet arq.format "png") == "svg"
          then "image/svg+xml" else "image/png")
      rw [he, hst]
      simp [List.countP_append, List.countP_cons, List.countP_replicate,
        Ev.isCleanup]
  · intro hw hmem
    rcases asyStep_cases acfg arq aenv with
      ⟨_, he⟩ | ⟨_, _, he⟩ | ⟨_, _, _, he⟩ | ⟨_, _, _, _, he⟩ |
      ⟨_, _, _, _, _, he⟩ | ⟨_, _, _, _, h5, cc, he⟩
    · rw [he] at hmem
      simp at hmem
    · rw [he] at hmem
      simp at hmem
    · rw [he] at hmem
      simp at hmem
    · rw [he] at hmem
      simp at hmem
    · rw [he]
      simp [List.countP_append, List.countP_cons, Ev.isCleanup]
    · rw [hw] at h5
      cases h5

/-- Witness for C1 amended: a non-zero exit invokes cleanup exactly once
on both endpoints; a failed source write after acquisition invokes it zero
times. -/
theorem C1_cleanup_amended_witness :
    ((renderStep sampleCfg ⟨.strVal "x = 1", .absent, .absent, .absent⟩
        ⟨true, true, true, "WORK", true, false, .closedOnly (some 1),
          [], true⟩).1.countP Ev.isCleanup)
      = handlerCleanups (.closedOnly (some 1)) ∧
    ((renderStep sampleCfg ⟨.strVal "x = 1", .absent, .absent, .absent⟩
        ⟨true, true, true, "WORK", false, false, .closedOnly (some 1),
          [], true⟩).1.countP Ev.isCleanup) = 0 ∧
    ((asyStep sampleAsyCfg ⟨.strVal "size(100);", .absent⟩
        ⟨true, true, "WORK", true, false, .closedOnly (some 1),
          [], true⟩).1.countP Ev.isCleanup)
      = handlerCleanups (.closedOnly (some 1)) ∧
    ((asyStep sampleAsyCfg ⟨.strVal "size(100);", .absent⟩
        ⟨true, true, "WORK", false, false, .closedOnly (some 1),
          [], true⟩).1.countP Ev.isCleanup) = 0 :=
  ⟨(C1_cleanup_amended sampleCfg ⟨.strVal "x = 1", .absent, .absent, .absent⟩
      ⟨true, true, true, "WORK", true, false, .closedOnly (some 1), [], true⟩
      sampleAsyCfg ⟨.strVal "size(100);", .absent⟩
      ⟨true, true, "WORK", true, false, .closedOnly (some 1), [], true⟩).1
    rfl (by decide),
   (C1_cleanup_amended sampleCfg ⟨.strVal "x = 1", .absent, .absent, .absent⟩
      ⟨true, true, true, "WORK", false, false, .closedOnly (some 1), [], true⟩
      sampleAsyCfg ⟨.strVal "size(100);", .absent⟩
      ⟨true, true, "WORK", true, false, .closedOnly (some 1), [], true⟩).2.1
    rfl (by decide),
   (C1_cleanup_amended sampleCfg ⟨.strVal "x = 1", .absent, .absent, .absent⟩
      ⟨true, true, true, "WORK", true, false, .closedOnly (some 1), [], true⟩
      sampleAsyCfg ⟨.strVal "size(100);", .absent⟩
      ⟨true, true, "WORK", true, false, .closedOnly (some 1), [], true⟩).2.2.1
    rfl (by decide),
   (C1_cleanup_amended sampleCfg ⟨.strVal "x = 1", .absent, .absent, .absent⟩
      ⟨true, true, true, "WORK", true, false, .closedOnly (some 1), [], true⟩
      sampleAsyCfg ⟨.strVal "size(100);", .absent⟩
      ⟨true, true, "WORK", false, false, .closedOnly (some 1), [], true⟩).2.2.2
    rfl (by decide)⟩

/-- C6 counterexample: the /render LaTeX probes run before the quality
selector is validated — a request with an invalid quality and LaTeX source
is answered 422 after both probes ran, though its validation never
completed; the /asy availability probe likewise precedes format
validation; and the xvfb-run probe runs after the workspace is created and
the source written, so probing is not complete before acquisition. -/
theorem C6_ordering_counterexample :
    ((renderStep sampleCfg ⟨.strVal "Tex(x)", .absent, .absent, .sval "zz"⟩
        ⟨false, true, true, "WORK", true, false, .closedOnly (some 1),
          [], true⟩).1
      = [.probe "latex", .probe "dvisvgm", .respondE 422] ∧
     validQuality (jsToLower "zz") = false) ∧
    (asyStep sampleAsyCfg ⟨.strVal "size(100);", .sval "bmp"⟩
        ⟨true, true, "WORK", true, false, .closedOnly (some 1),
          [], true⟩).1
      = [.probe "asy", .respondE 400] ∧
    (asyStep sampleAsyCfg ⟨.strVal "size(100);", .absent⟩
        ⟨true, true, "WORK", true, true, .closedOnly (some 1),
          [], true⟩).1
      = [.probe "asy", .mkdtempE "asy-", .writeE "main.asy",
         .probe "xvfb-run",
         .spawnE "xvfb-run"
           ["-a", "-s", "-screen 0 1280x1024x24 -ac +extension GLX", "asy",
            "-f", "png", "-tex", "pdflatex", "-o", "out", "WORK/main.asy"],
         .respondE 500, .cleanupE] := by
  refine ⟨⟨?_, ?_⟩, ?_, ?_⟩ <;> decide

/-- C6 amended: within one request the event kinds occur in the fixed
order probe, mkdtemp, write, (for /asy a second probe), spawn, respond,
cleanup — every trace is a subsequence of that master order — and the
source-text validation precedes every probe; but selector validation
happens after the availability probes (not before, as the claim states),
and is only guaranteed complete by the time the workspace is created. -/
theorem C6_ordering_amended (cfg : RenderCfg) (rq : RenderReq)
    (env : RenderEnv) (acfg : AsyCfg) (arq : AsyReq) (aenv : AsyEnv) :
    (((renderStep cfg rq env).1.map Ev.kind).Sublist
      [.kprobe, .kprobe, .kmkdtemp, .kwrite, .kspawn, .krespond,
       .kcleanup, .kcleanup]) ∧
    ((∃ e ∈ (renderStep cfg rq env).1, e.isProbe = true) →
      codeOk rq.code = true) ∧
    (Ev.mkdtempE "manim-" ∈ (renderStep cfg rq env).1 →
      validQuality (jsToLower (selGet rq.quality "ql")) = true ∧
      (jsToLower (selGet rq.format "mp4") == "mp4"
        || jsToLower (selGet rq.format "mp4") == "gif") = true) ∧
    (((asyStep acfg arq aenv).1.map Ev.kind).Sublist
      [.kprobe, .kmkdtemp, .kwrite, .kprobe, .kspawn, .krespond,
       .kcleanup, .kcleanup]) ∧
    ((∃ e ∈ (asyStep acfg arq aenv).1, e.isProbe = true) →
      codeOk arq.code = true) ∧
    (Ev.mkdtempE "asy-" ∈ (asyStep acfg arq aenv).1 →
      (jsToLower (selGet arq.format "png") == "png"
        || jsToLower (selGet arq.format "png") == "svg") = true) := by
  refine ⟨?_, ?_, ?_, ?_, ?_, ?_⟩
  · rcases renderStep_cases cfg rq env with
      ⟨_, he⟩ | ⟨_, _, he⟩ | ⟨_, _, _, he⟩ | ⟨_, _, _, _, he⟩ |
      ⟨_, _, _, _, _, he⟩ | ⟨_, _, _, _, _, _, he⟩ |
      ⟨_, _, _, _, _, _, cc, he⟩
    · rw [he]
      decide
    · rw [he]
      simp only [List.map_append]
      exact List.Sublist.append (renderProbes_kinds_sub _) (by decide)
    · rw [he]
      simp only [List.map_append]
      exact List.Sublist.append (renderProbes_kinds_sub _) (by decide)
    · rw [he]
      simp only [List.map_append]
      exact List.Sublist.append (renderProbes_kinds_sub _) (by decide)
    · rw [he]
      simp only [List.map_append]
      exact List.Sublist.append (renderProbes_kinds_sub _) (by decide)
    · rw [he]
      simp only [List.map_append]
      exact List.Sublist.append (renderProbes_kinds_sub _) (by decide)
    · obtain ⟨st, hst⟩ := childPhase_fst
        (renderProbes (codeString rq.code) ++
          [.mkdtempE "manim-", .writeE "scene.py", .spawnE cc.1 cc.2])
        env.procEv
        (findFileRecursive env.work env.tree
          (if jsToLower (selGet rq.format "mp4") == "gif"
            then "out.gif" else "out.mp4"))
        env.readOk
        (if jsToLower (selGet rq.format "mp4") == "gif"
          then "image/gif" else "video/mp4")
      rw [he, hst, List.append_assoc]
      simp only [List.map_append]
      refine List.Sublist.append (renderProbes_kinds_sub _) ?_
      cases env.procEv <;> simp [Ev.kind, handlerCleanups]
  · rintro ⟨e, hm, hp⟩
    rcases renderStep_cases cfg rq env with
      ⟨_, he⟩ | ⟨h1, _, he⟩ | ⟨h1, _, _, he⟩ | ⟨h1, _, _, _, he⟩ |
      ⟨h1, _, _, _, _, he⟩ | ⟨h1, _, _, _, _, _, he⟩ |
      ⟨h1, _, _, _, _, _, cc, he⟩
    · rw [he] at hm
      simp at hm
      subst hm
      simp [Ev.isProbe] at hp
    all_goals exact h1
  · intro hmem
    rcases renderStep_cases cfg rq env with
      ⟨_, he⟩ | ⟨_, _, he⟩ | ⟨_, _, _, he⟩ | ⟨_, _, _, _, he⟩ |
      ⟨_, _, _, _, _, he⟩ | ⟨_, _, h3, h4, _, _, he⟩ |
      ⟨_, _, h3, h4, _, _, cc, he⟩
    · rw [he] at hmem
      simp at hmem
    · rw [he] at hmem
      simp [List.mem_append, renderProbes_not_mkdtemp] at hmem
    · rw [he] at hmem
      simp [List.mem_append, renderProbes_not_mkdtemp] at hmem
    · rw [he] at hmem
      simp [List.mem_append, renderProbes_not_mkdtemp] at hmem
    · rw [he] at hmem
      simp [List.mem_append, renderProbes_not_mkdtemp] at hmem
    · exact ⟨h3, h4⟩
    · exact ⟨h3, h4⟩
  · rcases asyStep_cases acfg arq aenv with
      ⟨_, he⟩ | ⟨_, _, he⟩ | ⟨_, _, _, he⟩ | ⟨_, _, _, _, he⟩ |
      ⟨_, _, _, _, _, he⟩ | ⟨_, _, _, _, _, cc, he⟩
    · rw [he]
      decide
    · rw [he]
      simp [Ev.kind]
    · rw [he]
      simp [Ev.kind]
    · rw [he]
      simp [Ev.kind]
    · rw [he]
      simp [Ev.kind]
    · obtain ⟨st, hst⟩ := childPhase_fst
        [.probe acfg.asyBin, .mkdtempE "asy-", .writeE "main.asy",
          .probe acfg.xvfbBin, .spawnE cc.1 cc.2]
        aenv.procEv
        (findAsyOutput aenv.work aenv.tree
          (if jsToLower (selGet arq.format "png") == "svg"
            then "svg" else "png") "out")
        aenv.readOk
        (if jsToLower (selGet arq.format "png") == "svg"
          then "image/svg+xml" else "image/png")
      rw [he, hst]
      cases aenv.procEv <;> simp [Ev.kind, handlerCleanups]
  · rintro ⟨e, hm, hp⟩
    rcases asyStep_cases acfg arq aenv with
      ⟨_, he⟩ | ⟨h1, _, he⟩ | ⟨h1, _, _, he⟩ | ⟨h1, _, _, _, he⟩ |
      ⟨h1, _, _, _, _, he⟩ | ⟨h1, _, _, _, _, cc, he⟩
    · rw [he] at hm
      simp at hm
      subst hm
      simp [Ev.isProbe] at hp
    all_goals exact h1
  · intro hmem
    rcases asyStep_cases acfg arq aenv with
      ⟨_, he⟩ | ⟨_, _, he⟩ | ⟨_, _, _, he⟩ | ⟨_, _, h3, _, he⟩ |
      ⟨_, _, h3, _, _, he⟩ | ⟨_, _, h3, _, _, cc, he⟩
    · rw [he] at hmem
      simp at hmem
    · rw [he] at hmem
      simp at hmem
    · rw [he] at hmem
      simp at hmem
    · rw [he] at hmem
      simp at hmem
    · exact h3
    · exact h3

/-- Witness for C6 amended at a request whose trace realizes the full
master order on each endpoint. -/
theorem C6_ordering_amended_witness :
    (((renderStep sampleCfg ⟨.strVal "Tex(x)", .absent, .absent, .absent⟩
        ⟨true, true, true, "WORK", true, false, .errorThenClosed none,
          [], true⟩).1.map Ev.kind).Sublist
      [.kprobe, .kprobe, .kmkdtemp, .kwrite, .kspawn, .krespond,
       .kcleanup, .kcleanup]) ∧
    codeOk (CodeField.strVal "Tex(x)") = true ∧
    (validQuality (jsToLower (selGet .absent "ql")) = true ∧
      (jsToLower (selGet .absent "mp4") == "mp4"
        || jsToLower (selGet .absent "mp4") == "gif") = true) :=
  have h := C6_ordering_amended sampleCfg
    ⟨.strVal "Tex(x)", .absent, .absent, .absent⟩
    ⟨true, true, true, "WORK", true, false, .errorThenClosed none, [], true⟩
    sampleAsyCfg ⟨.strVal "size(100);", .absent⟩
    ⟨true, true, "WORK", true, false, .closedOnly (some 1), [], true⟩
  ⟨h.1, h.2.1 (by decide), h.2.2.1 (by decide)⟩

/-- C9: the format and quality selectors are compared only through their
lowercased string form — two requests whose selectors lowercase equally
behave identically on both endpoints — and a request is rejected with the
selector-specific 400 exactly when the earlier stages pass and the
lowercase form lies outside the enumerated set. -/
theorem C9_selector_lowercase (cfg : RenderCfg) (env : RenderEnv)
    (acfg : AsyCfg) (aenv : AsyEnv) (cd : CodeField) (sc : SelField)
    (q q2 f f2 fa fa2 : String)
    (hq : jsToLower q = jsToLower q2) (hf : jsToLower f = jsToLower f2)
    (hfa : jsToLower fa = jsToLower fa2) :
    renderStep cfg ⟨cd, sc, .sval f, .sval q⟩ env
      = renderStep cfg ⟨cd, sc, .sval f2, .sval q2⟩ env ∧
    asyStep acfg ⟨cd, .sval fa⟩ aenv = asyStep acfg ⟨cd, .sval fa2⟩ aenv ∧
    (∀ rq : RenderReq, ((renderStep cfg rq env).2 = .badQuality ↔
      (codeOk rq.code = true ∧
       (usesLatex (codeString rq.code)
         && (!env.latexAvail || !env.dvisvgmAvail)) = false ∧
       validQuality (jsToLower (selGet rq.quality "ql")) = false))) ∧
    (∀ rq : RenderReq, ((renderStep cfg rq env).2 = .badFormat ↔
      (codeOk rq.code = true ∧
       (usesLatex (codeString rq.code)
         && (!env.latexAvail || !env.dvisvgmAvail)) = false ∧
       validQuality (jsToLower (selGet rq.quality "ql")) = true ∧
       (jsToLower (selGet rq.format "mp4") == "mp4"
         || jsToLower (selGet rq.format "mp4") == "gif") = false))) ∧
    (∀ arq : AsyReq, ((asyStep acfg arq aenv).2 = .badFormat ↔
      (codeOk arq.code = true ∧ aenv.asyAvail = true ∧
       (jsToLower (selGet arq.format "png") == "png"
         || jsToLower (selGet arq.format "png") == "svg") = false))) := by
  refine ⟨?_, ?_, ?_, ?_, ?_⟩
  · unfold renderStep
    simp only [selGet]
    simp only [hq, hf]
  · unfold asyStep
    simp only [selGet]
    simp only [hfa]
  · intro rq
    constructor
    · intro h
      rcases renderStep_cases cfg rq env with
        ⟨_, he⟩ | ⟨_, _, he⟩ | ⟨h1, h2, h3, he⟩ | ⟨_, _, _, _, he⟩ |
        ⟨_, _, _, _, _, he⟩ | ⟨_, _, _, _, _, _, he⟩ |
        ⟨_, _, _, _, _, _, cc, he⟩
      · rw [he] at h
        simp at h
      · rw [he] at h
        simp at h
      · exact ⟨h1, h2, h3⟩
      · rw [he] at h
        simp at h
      · rw [he] at h
        simp at h
      · rw [he] at h
        simp at h
      · rw [he] at h
        exact absurd h (childPhase_snd_ne _ _ _ _ _).1
    · rintro ⟨hc, hlx, hq'⟩
      rcases renderStep_cases cfg rq env with
        ⟨h1, he⟩ | ⟨_, h2, he⟩ | ⟨_, _, _, he⟩ | ⟨_, _, h3, _, he⟩ |
        ⟨_, _, h3, _, _, he⟩ | ⟨_, _, h3, _, _, _, he⟩ |
        ⟨_, _, h3, _, _, _, cc, he⟩
      · rw [hc] at h1
        cases h1
      · rw [hlx] at h2
        cases h2
      · rw [he]
      · rw [hq'] at h3
        cases h3
      · rw [hq'] at h3
        cases h3
      · rw [hq'] at h3
        cases h3
      · rw [hq'] at h3
        cases h3
  · intro rq
    constructor
    · intro h
      rcases renderStep_cases cfg rq env with
        ⟨_, he⟩ | ⟨_, _, he⟩ | ⟨_, _, _, he⟩ | ⟨h1, h2, h3, h4, he⟩ |
        ⟨_, _, _, _, _, he⟩ | ⟨_, _, _, _, _, _, he⟩ |
        ⟨_, _, _, _, _, _, cc, he⟩
      · rw [he] at h
        simp at h
      · rw [he] at h
        simp at h
      · rw [he] at h
        simp at h
      · exact ⟨h1, h2, h3, h4⟩
      · rw [he] at h
        simp at h
      · rw [he] at h
        simp at h
      · rw [he] at h
        exact absurd h (childPhase_snd_ne _ _ _ _ _).2.1
    · rintro ⟨hc, hlx, hq', hf'⟩
      rcases renderStep_cases cfg rq env with
        ⟨h1, he⟩ | ⟨_, h2, he⟩ | ⟨_, _, h3, he⟩ | ⟨_, _, _, _, he⟩ |
        ⟨_, _, _, h4, _, he⟩ | ⟨_, _, _, h4, _, _, he⟩ |
        ⟨_, _, _, h4, _, _, cc, he⟩
      · rw [hc] at h1
        cases h1
      · rw [hlx] at h2
        cases h2
      · rw [hq'] at h3
        cases h3
      · rw [he]
      · rw [hf'] at h4
        cases h4
      · rw [hf'] at h4
        cases h4
      · rw [hf'] at h4
        cases h4
  · intro arq
    constructor
    · intro h
      rcases asyStep_cases acfg arq aenv with
        ⟨_, he⟩ | ⟨_, _, he⟩ | ⟨h1, h2, h3, he⟩ | ⟨_, _, _, _, he⟩ |
        ⟨_, _, _, _, _, he⟩ | ⟨_, _, _, _, _, cc, he⟩
      · rw [he] at h
        simp at h
      · rw [he] at h
        simp at h
      · exact ⟨h1, h2, h3⟩
      · rw [he] at h
        simp at h
      · rw [he] at h
        simp at h
      · rw [he] at h
        exact absurd h (childPhase_snd_ne _ _ _ _ _).2.1
    · rintro ⟨hc, ha, hf'⟩
      rcases asyStep_cases acfg arq aenv with
        ⟨h1, he⟩ | ⟨_, h2, he⟩ | ⟨_, _, _, he⟩ | ⟨_, _, h3, _, he⟩ |
        ⟨_, _, h3, _, _, he⟩ | ⟨_, _, h3, _, _, cc, he⟩
      · rw [hc] at h1
        cases h1
      · rw [ha] at h2
        cases h2
      · rw [he]
      · rw [hf'] at h3
        cases h3
      · rw [hf'] at h3
        cases h3
      · rw [hf'] at h3
        cases h3

/-- Witness for C9: MP4 and QL behave exactly as mp4 and ql, SVG as svg,
and a selector whose lowercase form is outside the set (zz) is rejected
with the quality 400. -/
theorem C9_selector_lowercase_witness :
    renderStep sampleCfg ⟨.strVal "x = 1", .absent, .sval "MP4", .sval "QL"⟩
        ⟨true, true, true, "WORK", true, false, .closedOnly (some 1),
          [], true⟩
      = renderStep sampleCfg ⟨.strVal "x = 1", .absent, .sval "mp4", .sval "ql"⟩
        ⟨true, true, true, "WORK", true, false, .closedOnly (some 1),
          [], true⟩ ∧
    asyStep sampleAsyCfg ⟨.strVal "size(100);", .sval "SVG"⟩
        ⟨true, true, "WORK", true, false, .closedOnly (some 1), [], true⟩
      = asyStep sampleAsyCfg ⟨.strVal "size(100);", .sval "svg"⟩
        ⟨true, true, "WORK", true, false, .closedOnly (some 1), [], true⟩ ∧
    (renderStep sampleCfg ⟨.strVal "x = 1", .absent, .absent, .sval "zz"⟩
        ⟨true, true, true, "WORK", true, false, .closedOnly (some 1),
          [], true⟩).2 = .badQuality :=
  have h := C9_selector_lowercase sampleCfg
    ⟨true, true, true, "WORK", true, false, .closedOnly (some 1), [], true⟩
    sampleAsyCfg
    ⟨true, true, "WORK", true, false, .closedOnly (some 1), [], true⟩
    (.strVal "x = 1") .absent "QL" "ql" "MP4" "mp4" "SVG" "svg"
    (by decide) (by decide) (by decide)
  ⟨h.1, h.2.1,
   (h.2.2.1 ⟨.strVal "x = 1", .absent, .absent, .sval "zz"⟩).mpr
     ⟨by decide, by decide, by decide⟩⟩

/-- C5: the proxy endpoints respond 500 before any fetch when the upstream
base URL is unconfigured; 502 with the raw error description when the
fetch itself fails; 502 wrapping the upstream body through safeJson
(JSON-parsed when possible, raw text otherwise) when the upstream status
is not 2xx; and relay the body with the declared content type (or the
octet-stream default) and status 200 on a 2xx upstream response. -/
theorem C5_proxy_errors (parse : String → Option JVal)
    (bodyOpt : Option JVal) (sfx : String) (up : UpstreamBehavior)
    (t m bodyS c : String) (st : Nat) :
    (proxyStep parse none bodyOpt sfx up
       = ([.prespondE 500], .notConfigured) ∧
      PResp.status .notConfigured = 500) ∧
    (proxyStep parse (some t) bodyOpt sfx (.netErr m)
       = ([.fetchE (stripTrailingSlash t ++ sfx) (forwardedBody bodyOpt),
           .prespondE 502], .unreachable m) ∧
      PResp.status (.unreachable m) = 502) ∧
    (¬(200 ≤ st ∧ st < 300) →
      (proxyStep parse (some t) bodyOpt sfx (.resp st (some c) bodyS)
         = ([.fetchE (stripTrailingSlash t ++ sfx) (forwardedBody bodyOpt),
             .prespondE 502], .upstreamErr st (safeJson parse bodyS)) ∧
       safeJson parse bodyS = (match parse bodyS with
         | some v => JsonOrText.parsed v
         | none => JsonOrText.rawText bodyS) ∧
       PResp.status (.upstreamErr st (safeJson parse bodyS)) = 502)) ∧
    ((200 ≤ st ∧ st < 300) →
      (proxyStep parse (some t) bodyOpt sfx (.resp st (some c) bodyS)
         = ([.fetchE (stripTrailingSlash t ++ sfx) (forwardedBody bodyOpt),
             .prespondE 200], .relay bodyS c) ∧
       proxyStep parse (some t) bodyOpt sfx (.resp st none bodyS)
         = ([.fetchE (stripTrailingSlash t ++ sfx) (forwardedBody bodyOpt),
             .prespondE 200], .relay bodyS "application/octet-stream") ∧
       PResp.status (.relay bodyS c) = 200)) := by
  refine ⟨⟨rfl, rfl⟩, ⟨rfl, rfl⟩, ?_, ?_⟩
  · intro h
    refine ⟨?_, rfl, rfl⟩
    simp [proxyStep, h]
  · intro h
    refine ⟨?_, ?_, rfl⟩ <;> simp [proxyStep, h]

/-- Witness for C5 at a 404 upstream error and a 200 upstream success. -/
theorem C5_proxy_errors_witness :
    (proxyStep (fun _ => none) (some "http://up/") none "/render"
        (.resp 404 (some "application/json") "oops")
       = ([.fetchE (stripTrailingSlash "http://up/" ++ "/render")
             (forwardedBody none), .prespondE 502],
          .upstreamErr 404 (safeJson (fun _ => none) "oops")) ∧
     safeJson (fun _ => (none : Option JVal)) "oops"
       = (match (none : Option JVal) with
          | some v => JsonOrText.parsed v
          | none => JsonOrText.rawText "oops") ∧
     PResp.status (.upstreamErr 404 (safeJson (fun _ => none) "oops"))
       = 502) ∧
    (proxyStep (fun _ => none) (some "http://up/") none "/render"
        (.resp 200 (some "video/mp4") "bytes")
       = ([.fetchE (stripTrailingSlash "http://up/" ++ "/render")
             (forwardedBody none), .prespondE 200],
          .relay "bytes" "video/mp4") ∧
     proxyStep (fun _ => none) (some "http://up/") none "/render"
        (.resp 200 none "bytes")
       = ([.fetchE (stripTrailingSlash "http://up/" ++ "/render")
             (forwardedBody none), .prespondE 200],
          .relay "bytes" "application/octet-stream") ∧
     PResp.status (.relay "bytes" "video/mp4") = 200) :=
  have h := C5_proxy_errors (fun _ => none) none "/render"
    (.resp 404 (some "application/json") "oops") "http://up/" "msg" "oops"
    "application/json" 404
  have h2 := C5_proxy_errors (fun _ => none) none "/render"
    (.resp 200 (some "video/mp4") "bytes") "http://up/" "msg" "bytes"
    "video/mp4" 200
  ⟨h.2.2.1 (by decide), h2.2.2.2 (by decide)⟩

/-- C10: the proxy endpoints validate nothing themselves — no input ever
yields a 400 — and whenever the upstream URL is configured the fetch is
attempted with the forwarded body JSON.stringify of the request body (or
of the empty object when the body is absent or falsy); an absent body is
forwarded as the two-character empty-object literal. -/
theorem C10_proxy_forwarding (parse : String → Option JVal)
    (target : Option String) (bodyOpt : Option JVal) (sfx : String)
    (up : UpstreamBehavior) :
    PResp.status (proxyStep parse target bodyOpt sfx up).2 ≠ 400 ∧
    (∀ t, target = some t →
      PEv.fetchE (stripTrailingSlash t ++ sfx) (forwardedBody bodyOpt)
        ∈ (proxyStep parse target bodyOpt sfx up).1) ∧
    forwardedBody none = "\x7b\x7d" := by
  refine ⟨?_, ?_, rfl⟩
  · cases target with
    | none => simp [proxyStep, PResp.status]
    | some t =>
      cases up with
      | netErr m => simp [proxyStep, PResp.status]
      | resp st ct b =>
        by_cases h : 200 ≤ st ∧ st < 300 <;>
          simp [proxyStep, PResp.status, h]
  · intro t ht
    subst ht
    cases up with
    | netErr m => simp [proxyStep]
    | resp st ct b =>
      by_cases h : 200 ≤ st ∧ st < 300 <;> simp [proxyStep, h]

/-- Witness for C10: with a configured upstream and an absent body, the
fetch carries the empty-object literal and no 400 is produced. -/
theorem C10_proxy_forwarding_witness :
    PResp.status (proxyStep (fun _ => none) (some "http://up") none "/asy"
        (.netErr "down")).2 ≠ 400 ∧
    PEv.fetchE (stripTrailingSlash "http://up" ++ "/asy") (forwardedBody none)
      ∈ (proxyStep (fun _ => none) (some "http://up") none "/asy"
          (.netErr "down")).1 ∧
    forwardedBody none = "\x7b\x7d" :=
  have h := C10_proxy_forwarding (fun _ => none) (some "http://up") none
    "/asy" (.netErr "down")
  ⟨h.1, h.2.1 "http://up" rfl, h.2.2⟩

end Edugen
